import Mathlib

/-!
# Verification of the `lexms/di-container` resolution engine

Shallow embedding of `src/di-container.ts` and `src/types.ts`: the service
registry, singleton/transient lifetimes, cycle detection, the sync/async
resolution fork, and disposal.

Modelling choices:
* JavaScript runtime values are the inductive `Value`; object identity
  (the id of `Value.obj`) models reference equality (`===`), and an object
  optionally carries a `dispose` capability (`tdThrows : Option Bool`,
  `some b` meaning the object has a zero-argument `dispose` method that throws
  iff `b`).
* A registration's factory is a pure function of its own invocation count
  (`Nat → FactoryResult`), so it may return a different value or throw on each
  call; `ServiceRegistration.calls` is ghost instrumentation counting how many
  times the factory has run (it drives the invocation index and lets theorems
  speak about "the factory runs at most once"). Factories do not re-enter the
  container; re-entrancy is captured by quantifying theorems over arbitrary
  container states, including states whose `resolutionStack` is non-empty.
* The optional TypeScript field `instance?: T` is `inst : Option Value`;
  reading it in JavaScript yields `undefined` when the field is absent, which
  is `Option.getD Value.undef`.
* The logging collaborator and the performance counters are omitted: per the
  code they never affect resolution outcomes (they only observe), so no claim
  depends on them.
* `Promise` values model only fulfilment (`Value.promise v` awaits to `v`);
  rejected promises are not needed by any claim, and a factory that throws
  synchronously is `FactoryResult.throw`.
-/

/-- A JavaScript `string | symbol` service key. Symbols are identified by an
id (identity) and carry their description for `toString()`. -/
inductive Key where
  | str (s : String)
  | sym (id : Nat) (desc : String)
deriving DecidableEq

/-- A token accepted by the container API: a string, a symbol, or a class-like
(constructor) reference. A constructor carries its declared `name` (the empty
string for an anonymous class) and its source text (for `toString()`), plus an
identity id: two distinct constructor values may share a name. -/
inductive Token where
  | str (s : String)
  | sym (id : Nat) (desc : String)
  | ctor (name : String) (srcText : String) (id : Nat)
deriving DecidableEq

/-- JavaScript error classes appearing in `di-container.ts`: the built-in
`Error`, the base `DIContainerError`, and its two declared subclasses. -/
inductive ErrorClass where
  | errorBase
  | diContainerError
  | circularDependencyError
  | serviceNotFoundError
deriving DecidableEq

/-- The prototype chain of each error class, starting at the class itself. -/
def ErrorClass.ancestors : ErrorClass → List ErrorClass
  | .errorBase => [.errorBase]
  | .diContainerError => [.diContainerError, .errorBase]
  | .circularDependencyError => [.circularDependencyError, .diContainerError, .errorBase]
  | .serviceNotFoundError => [.serviceNotFoundError, .diContainerError, .errorBase]

/-- `c instanceOf t`: walking the prototype chain of `c` reaches `t`. -/
def ErrorClass.instanceOf (c t : ErrorClass) : Bool := t ∈ c.ancestors

/-- `c` is a strict (proper) subtype of `t`: an instance of `t` but not `t`
itself. -/
def ErrorClass.properSubclassOf (c t : ErrorClass) : Bool := c.instanceOf t && c ≠ t

/-- A thrown JavaScript error: its (most derived) class, its `name` property,
and its message. -/
structure JsError where
  cls : ErrorClass
  name : String
  message : String
deriving DecidableEq

/-- `new DIContainerError(message)` (also what the sync-resolution promise
check throws). -/
def mkDIContainerError (message : String) : JsError :=
  { cls := .diContainerError, name := "DIContainerError", message := message }

/-- `new CircularDependencyError(token)`. -/
def mkCircularDependencyError (token : String) : JsError :=
  { cls := .circularDependencyError, name := "CircularDependencyError",
    message := "Circular dependency detected for token: " ++ token }

/-- `new ServiceNotFoundError(token)`. -/
def mkServiceNotFoundError (token : String) : JsError :=
  { cls := .serviceNotFoundError, name := "ServiceNotFoundError",
    message := "Service not found for token: " ++ token }

/-- A user error thrown by a service's `dispose` method (any class; we use the
built-in `Error`). -/
def mkTeardownError : JsError :=
  { cls := .errorBase, name := "Error", message := "teardown failure" }

/-- A JavaScript runtime value, as far as the container observes it.
`obj id tdThrows`: an object with identity `id`; `tdThrows = some b` means it
has a zero-argument `dispose` method, which throws iff `b`.
`promise v` is a promise fulfilled with `v`. -/
inductive Value where
  | undef
  | null
  | bool (b : Bool)
  | num (n : Int)
  | str (s : String)
  | obj (id : Nat) (tdThrows : Option Bool)
  | promise (v : Value)
deriving DecidableEq

/-- One factory invocation either returns a value (possibly a promise) or
throws. -/
inductive FactoryResult where
  | ret (v : Value)
  | throw (e : JsError)
deriving DecidableEq

/-- `ServiceRegistration` from `types.ts`: `factory`, `singleton`,
`instance?` (here `inst`). The factory takes its ghost invocation index;
`calls` counts completed invocations (ghost, not in the source record). -/
structure ServiceRegistration where
  factory : Nat → FactoryResult
  singleton : Bool
  inst : Option Value := none
  calls : Nat := 0

/-- `LifetimeScope` from `types.ts`. -/
inductive LifetimeScope where
  | transient
  | singleton
deriving DecidableEq

/-- The `DIContainer` state: `_services` (a JavaScript `Map`, i.e. an
insertion-ordered association list with unique keys) and `_resolutionStack`
(a JavaScript `Set`, i.e. an insertion-ordered duplicate-free list). -/
structure DIContainer where
  services : List (Key × ServiceRegistration) := []
  resolutionStack : List Key := []

/-- A fresh container (`new DIContainer()`). -/
def emptyContainer : DIContainer := {}

/-- `Map.prototype.get`. -/
def mapGet {α : Type} : List (Key × α) → Key → Option α
  | [], _ => none
  | (k', v) :: rest, k => if k' = k then some v else mapGet rest k

/-- `Map.prototype.set`: replace in place if the key exists (keeping its
insertion position, as JavaScript Maps do), otherwise append. -/
def mapSet {α : Type} : List (Key × α) → Key → α → List (Key × α)
  | [], k, v => [(k, v)]
  | (k', v') :: rest, k, v =>
      if k' = k then (k, v) :: rest else (k', v') :: mapSet rest k v

/-- `Set.prototype.has` / membership test. -/
def stackHas (s : List Key) (k : Key) : Bool := decide (k ∈ s)

/-- `Set.prototype.add`: no-op when present, else append. -/
def stackAdd (s : List Key) (k : Key) : List Key := if k ∈ s then s else s ++ [k]

/-- `Set.prototype.delete`: remove the key. -/
def stackDelete (s : List Key) (k : Key) : List Key := s.filter (fun x => x != k)

/-- `DIContainer._getTokenKey`: strings and symbols pass through; a class-like
reference maps to `token.name || token.toString()` (the declared name, or the
source text when the name is the empty string, which is falsy). -/
def getTokenKey : Token → Key
  | .str s => .str s
  | .sym id desc => .sym id desc
  | .ctor name srcText _ => if name = "" then .str srcText else .str name

/-- `key.toString()` for error messages. -/
def keyToString : Key → String
  | .str s => s
  | .sym _ desc => "Symbol(" ++ desc ++ ")"

/-- Reading `registration.instance` in JavaScript: `undefined` when the field
is absent. -/
def instanceRead (r : ServiceRegistration) : Value := r.inst.getD Value.undef

/-- The guard `registration.instance !== undefined` from `resolve` /
`resolveAsync` (line 143 / 208). -/
def instanceDefined (r : ServiceRegistration) : Bool := instanceRead r != Value.undef

/-- `instance instanceof Promise`. -/
def isPromise : Value → Bool
  | .promise _ => true
  | _ => false

/-- `await v`: a fulfilled promise awaits to its value, a plain value to
itself. -/
def awaitValue : Value → Value
  | .promise v => v
  | v => v

/-- `DIContainer.register(token, factory, scope = SINGLETON)`. -/
def register (c : DIContainer) (token : Token) (factory : Nat → FactoryResult)
    (scope : LifetimeScope := .singleton) : DIContainer :=
  let key := getTokenKey token
  { c with services :=
      (mapSet c.services key ⟨factory, decide (scope = LifetimeScope.singleton), none, 0⟩) }

/-- `DIContainer.registerSingleton(token, factory)`. -/
def registerSingleton (c : DIContainer) (token : Token)
    (factory : Nat → FactoryResult) : DIContainer :=
  register c token factory .singleton

/-- `DIContainer.registerTransient(token, factory)`. -/
def registerTransient (c : DIContainer) (token : Token)
    (factory : Nat → FactoryResult) : DIContainer :=
  register c token factory .transient

/-- `DIContainer.registerInstance(token, instance)`: a constant-returning
factory, `singleton: true`, and the `instance` field immediately present. -/
def registerInstance (c : DIContainer) (token : Token) (v : Value) : DIContainer :=
  let key := getTokenKey token
  { c with services :=
      (mapSet c.services key ⟨fun _ => .ret v, true, some v, 0⟩) }

/-- `DIContainer.resolve(token)`: returns the outcome (value or thrown error)
and the successor container state. Mirrors lines 126–184 of
`di-container.ts`; the `finally` block's `delete` is applied on every exit
path that follows the `add`. -/
def resolve (c : DIContainer) (token : Token) : Except JsError Value × DIContainer :=
  let key := getTokenKey token
  if stackHas c.resolutionStack key then
    (.error (mkCircularDependencyError (keyToString key)), c)
  else
    match mapGet c.services key with
    | none => (.error (mkServiceNotFoundError (keyToString key)), c)
    | some registration =>
      if registration.singleton && instanceDefined registration then
        (.ok (instanceRead registration), c)
      else
        let stack1 := stackAdd c.resolutionStack key
        let invoked : ServiceRegistration := { registration with calls := registration.calls + 1 }
        match registration.factory registration.calls with
        | .throw e =>
            (.error e,
             { c with services := mapSet c.services key invoked,
                      resolutionStack := stackDelete stack1 key })
        | .ret v =>
            if isPromise v then
              (.error (mkDIContainerError
                 ("Cannot resolve async service synchronously: " ++ keyToString key ++
                  ". Use resolveAsync instead.")),
               { c with services := mapSet c.services key invoked,
                        resolutionStack := stackDelete stack1 key })
            else
              (.ok v,
               { c with
                 services := (mapSet c.services key (if registration.singleton then { invoked with inst := some v } else invoked)),
                 resolutionStack := stackDelete stack1 key })

/-- `DIContainer.resolveAsync(token)`: as `resolve` but the factory's result
is awaited (a fulfilled promise or a plain value both succeed) and there is no
promise check. Mirrors lines 189–244. -/
def resolveAsync (c : DIContainer) (token : Token) : Except JsError Value × DIContainer :=
  let key := getTokenKey token
  if stackHas c.resolutionStack key then
    (.error (mkCircularDependencyError (keyToString key)), c)
  else
    match mapGet c.services key with
    | none => (.error (mkServiceNotFoundError (keyToString key)), c)
    | some registration =>
      if registration.singleton && instanceDefined registration then
        (.ok (instanceRead registration), c)
      else
        let stack1 := stackAdd c.resolutionStack key
        let invoked : ServiceRegistration := { registration with calls := registration.calls + 1 }
        match registration.factory registration.calls with
        | .throw e =>
            (.error e,
             { c with services := mapSet c.services key invoked,
                      resolutionStack := stackDelete stack1 key })
        | .ret raw =>
            let v := awaitValue raw
            (.ok v,
             { c with
               services := (mapSet c.services key (if registration.singleton then { invoked with inst := some v } else invoked)),
               resolutionStack := stackDelete stack1 key })

/-- `DIContainer.has(token)`. -/
def hasToken (c : DIContainer) (token : Token) : Bool :=
  (mapGet c.services (getTokenKey token)).isSome

/-- `DIContainer.getRegisteredTokens()`. -/
def getRegisteredTokens (c : DIContainer) : List Key := c.services.map Prod.fst

/-- `DIContainer.clear()`. -/
def clear (c : DIContainer) : DIContainer := { c with services := [] }

/-- `typeof v === 'object'` (note `typeof null === 'object'`; promises are
objects). -/
def typeofIsObject : Value → Bool
  | .null => true
  | .obj _ _ => true
  | .promise _ => true
  | _ => false

/-- JavaScript truthiness, for the guard `registration.instance && ...`. -/
def truthy : Value → Bool
  | .undef => false
  | .null => false
  | .bool b => b
  | .num n => n != 0
  | .str s => s != ""
  | .obj _ _ => true
  | .promise _ => true

/-- `typeof instance.dispose === 'function'`. -/
def hasDisposeMethod : Value → Bool
  | .obj _ (some _) => true
  | _ => false

/-- The object's identity, for recording which instances had their teardown
invoked. -/
def objId : Value → Nat
  | .obj id _ => id
  | _ => 0

/-- `await instance.dispose()`: succeeds or throws according to the object's
teardown capability. -/
def runTeardown (v : Value) : Except JsError Unit :=
  match v with
  | .obj _ (some true) => .error mkTeardownError
  | _ => .ok ()

/-- The `for (const [key, registration] of this._services)` loop of
`dispose` (lines 275–291): returns the identities of the instances whose
`dispose` method was invoked, in iteration order. A teardown that throws is
caught (and logged); iteration continues either way. -/
def disposeVisit : List (Key × ServiceRegistration) → List Nat
  | [] => []
  | (_, registration) :: rest =>
      let v := instanceRead registration
      if truthy v && typeofIsObject v then
        if hasDisposeMethod v then
          match runTeardown v with
          | .ok _ => objId v :: disposeVisit rest
          | .error _ => objId v :: disposeVisit rest
        else disposeVisit rest
      else disposeVisit rest

/-- `DIContainer.dispose()` (lines 272–294): visit every registration,
invoking (and awaiting) `dispose` on each cached object instance that has
one, catching per-instance teardown errors, then `this.clear()`. The result
is the list of torn-down object identities and the final state; the `Except`
layer shows no error path reaches the caller. -/
def dispose (c : DIContainer) : Except JsError (List Nat × DIContainer) :=
  .ok (disposeVisit c.services, clear c)

/-- Ghost observer: how many times the factory registered under `k` has run. -/
def callsAt (c : DIContainer) (k : Key) : Nat :=
  match mapGet c.services k with
  | some r => r.calls
  | none => 0

/-- Observer: the `instance` field of the registration under `k` (`none` when
the key is unregistered or the field absent). -/
def instanceAt (c : DIContainer) (k : Key) : Option Value :=
  match mapGet c.services k with
  | some r => r.inst
  | none => none

deriving instance DecidableEq for Except

/-! ## Basic lemmas about the map and stack primitives -/

theorem stackHas_false_iff (s : List Key) (k : Key) :
    stackHas s k = false ↔ k ∉ s := by
  simp [stackHas]

theorem stackAdd_of_not_mem {s : List Key} {k : Key} (h : k ∉ s) :
    stackAdd s k = s ++ [k] := by
  simp [stackAdd, h]

theorem stackDelete_of_not_mem {s : List Key} {k : Key} (h : k ∉ s) :
    stackDelete s k = s := by
  induction s with
  | nil => rfl
  | cons a rest ih =>
      simp only [List.mem_cons, not_or] at h
      simp [stackDelete, List.filter_cons, bne_iff_ne, Ne.symm h.1, ih h.2] at *
      exact ih h.2

theorem stackDelete_stackAdd {s : List Key} {k : Key} (h : k ∉ s) :
    stackDelete (stackAdd s k) k = s := by
  rw [stackAdd_of_not_mem h]
  have : stackDelete (s ++ [k]) k = stackDelete s k ++ stackDelete [k] k := by
    simp [stackDelete, List.filter_append]
  rw [this, stackDelete_of_not_mem h]
  simp [stackDelete]

theorem mapGet_mapSet_self {α : Type} (m : List (Key × α)) (k : Key) (v : α) :
    mapGet (mapSet m k v) k = some v := by
  induction m with
  | nil => simp [mapGet, mapSet]
  | cons p rest ih =>
      by_cases h : p.1 = k
      · simp [mapSet, h, mapGet]
      · simp [mapSet, h, mapGet, ih]

theorem mem_mapSet {α : Type} {m : List (Key × α)} {k : Key} {v : α}
    {p : Key × α} (hp : p ∈ mapSet m k v) : p = (k, v) ∨ p ∈ m := by
  induction m with
  | nil => simpa [mapSet] using hp
  | cons q rest ih =>
      by_cases h : q.1 = k
      · simp only [mapSet, h, if_pos] at hp
        rcases List.mem_cons.mp hp with h1 | h2
        · exact .inl h1
        · exact .inr (List.mem_cons_of_mem _ h2)
      · simp only [mapSet, h, if_neg, not_false_iff] at hp
        rcases List.mem_cons.mp hp with h1 | h2
        · exact .inr (h1 ▸ List.mem_cons_self _ _)
        · rcases ih h2 with h3 | h4
          · exact .inl h3
          · exact .inr (List.mem_cons_of_mem _ h4)

/-! ## Stepping lemmas for `resolve` and `resolveAsync` -/

theorem resolve_of_inStack {c : DIContainer} {t : Token}
    (h : stackHas c.resolutionStack (getTokenKey t) = true) :
    resolve c t =
      (.error (mkCircularDependencyError (keyToString (getTokenKey t))), c) := by
  simp [resolve, h]

theorem resolveAsync_of_inStack {c : DIContainer} {t : Token}
    (h : stackHas c.resolutionStack (getTokenKey t) = true) :
    resolveAsync c t =
      (.error (mkCircularDependencyError (keyToString (getTokenKey t))), c) := by
  simp [resolveAsync, h]

theorem resolve_of_notFound {c : DIContainer} {t : Token}
    (hs : stackHas c.resolutionStack (getTokenKey t) = false)
    (hm : mapGet c.services (getTokenKey t) = none) :
    resolve c t =
      (.error (mkServiceNotFoundError (keyToString (getTokenKey t))), c) := by
  simp [resolve, hs, hm]

theorem resolveAsync_of_notFound {c : DIContainer} {t : Token}
    (hs : stackHas c.resolutionStack (getTokenKey t) = false)
    (hm : mapGet c.services (getTokenKey t) = none) :
    resolveAsync c t =
      (.error (mkServiceNotFoundError (keyToString (getTokenKey t))), c) := by
  simp [resolveAsync, hs, hm]

theorem resolve_of_cacheHit {c : DIContainer} {t : Token} {r : ServiceRegistration}
    (hs : stackHas c.resolutionStack (getTokenKey t) = false)
    (hm : mapGet c.services (getTokenKey t) = some r)
    (hsing : r.singleton = true) (hdef : instanceDefined r = true) :
    resolve c t = (.ok (instanceRead r), c) := by
  simp [resolve, hs, hm, hsing, hdef]

theorem resolveAsync_of_cacheHit {c : DIContainer} {t : Token} {r : ServiceRegistration}
    (hs : stackHas c.resolutionStack (getTokenKey t) = false)
    (hm : mapGet c.services (getTokenKey t) = some r)
    (hsing : r.singleton = true) (hdef : instanceDefined r = true) :
    resolveAsync c t = (.ok (instanceRead r), c) := by
  simp [resolveAsync, hs, hm, hsing, hdef]

theorem resolve_of_ret {c : DIContainer} {t : Token} {r : ServiceRegistration} {v : Value}
    (hs : stackHas c.resolutionStack (getTokenKey t) = false)
    (hm : mapGet c.services (getTokenKey t) = some r)
    (hcold : (r.singleton && instanceDefined r) = false)
    (hf : r.factory r.calls = .ret v)
    (hp : isPromise v = false) :
    resolve c t =
      (.ok v,
       { c with
         services := (mapSet c.services (getTokenKey t)
           (if r.singleton then { r with calls := r.calls + 1, inst := some v }
            else { r with calls := r.calls + 1 })),
         resolutionStack := c.resolutionStack }) := by
  have hns : getTokenKey t ∉ c.resolutionStack := (stackHas_false_iff _ _).mp hs
  simp only [resolve, hs, Bool.false_eq_true, if_false, hm, hcold, hf, hp,
    stackDelete_stackAdd hns]

theorem resolve_of_promise {c : DIContainer} {t : Token} {r : ServiceRegistration} {v : Value}
    (hs : stackHas c.resolutionStack (getTokenKey t) = false)
    (hm : mapGet c.services (getTokenKey t) = some r)
    (hcold : (r.singleton && instanceDefined r) = false)
    (hf : r.factory r.calls = .ret v)
    (hp : isPromise v = true) :
    resolve c t =
      (.error (mkDIContainerError
         ("Cannot resolve async service synchronously: " ++ keyToString (getTokenKey t) ++
          ". Use resolveAsync instead.")),
       { c with
         services := (mapSet c.services (getTokenKey t) { r with calls := r.calls + 1 }),
         resolutionStack := c.resolutionStack }) := by
  have hns : getTokenKey t ∉ c.resolutionStack := (stackHas_false_iff _ _).mp hs
  simp only [resolve, hs, Bool.false_eq_true, if_false, hm, hcold, hf, hp,
    stackDelete_stackAdd hns, if_true]

theorem resolve_of_throw {c : DIContainer} {t : Token} {r : ServiceRegistration} {e : JsError}
    (hs : stackHas c.resolutionStack (getTokenKey t) = false)
    (hm : mapGet c.services (getTokenKey t) = some r)
    (hcold : (r.singleton && instanceDefined r) = false)
    (hf : r.factory r.calls = .throw e) :
    resolve c t =
      (.error e,
       { c with
         services := (mapSet c.services (getTokenKey t) { r with calls := r.calls + 1 }),
         resolutionStack := c.resolutionStack }) := by
  have hns : getTokenKey t ∉ c.resolutionStack := (stackHas_false_iff _ _).mp hs
  simp only [resolve, hs, Bool.false_eq_true, if_false, hm, hcold, hf,
    stackDelete_stackAdd hns]

theorem resolveAsync_of_ret {c : DIContainer} {t : Token} {r : ServiceRegistration} {v : Value}
    (hs : stackHas c.resolutionStack (getTokenKey t) = false)
    (hm : mapGet c.services (getTokenKey t) = some r)
    (hcold : (r.singleton && instanceDefined r) = false)
    (hf : r.factory r.calls = .ret v) :
    resolveAsync c t =
      (.ok (awaitValue v),
       { c with
         services := (mapSet c.services (getTokenKey t)
           (if r.singleton then { r with calls := r.calls + 1, inst := some (awaitValue v) }
            else { r with calls := r.calls + 1 })),
         resolutionStack := c.resolutionStack }) := by
  have hns : getTokenKey t ∉ c.resolutionStack := (stackHas_false_iff _ _).mp hs
  simp only [resolveAsync, hs, Bool.false_eq_true, if_false, hm, hcold, hf,
    stackDelete_stackAdd hns]

theorem resolveAsync_of_throw {c : DIContainer} {t : Token} {r : ServiceRegistration} {e : JsError}
    (hs : stackHas c.resolutionStack (getTokenKey t) = false)
    (hm : mapGet c.services (getTokenKey t) = some r)
    (hcold : (r.singleton && instanceDefined r) = false)
    (hf : r.factory r.calls = .throw e) :
    resolveAsync c t =
      (.error e,
       { c with
         services := (mapSet c.services (getTokenKey t) { r with calls := r.calls + 1 }),
         resolutionStack := c.resolutionStack }) := by
  have hns : getTokenKey t ∉ c.resolutionStack := (stackHas_false_iff _ _).mp hs
  simp only [resolveAsync, hs, Bool.false_eq_true, if_false, hm, hcold, hf,
    stackDelete_stackAdd hns]

/-! ## Claim theorems -/

/-- Claim C4: in `resolve` and `resolveAsync`, presence of the normalized key
in the resolution stack is checked before the registry lookup, so for every
key currently in the stack, resolving it fails with `CircularDependencyError`
naming that key — even when the key is not registered at all (circular
dependency takes precedence over service-not-found). -/
theorem C4_circular_precedes_lookup (c : DIContainer) (t : Token)
    (h : getTokenKey t ∈ c.resolutionStack) :
    resolve c t =
      (.error (mkCircularDependencyError (keyToString (getTokenKey t))), c) ∧
    resolveAsync c t =
      (.error (mkCircularDependencyError (keyToString (getTokenKey t))), c) := by
  have hb : stackHas c.resolutionStack (getTokenKey t) = true := by
    simp [stackHas, h]
  exact ⟨resolve_of_inStack hb, resolveAsync_of_inStack hb⟩

theorem C4_circular_precedes_lookup_witness :
    resolve { services := [], resolutionStack := [Key.str "a"] } (Token.str "a") =
      (.error (mkCircularDependencyError "a"),
       { services := [], resolutionStack := [Key.str "a"] }) ∧
    resolveAsync { services := [], resolutionStack := [Key.str "a"] } (Token.str "a") =
      (.error (mkCircularDependencyError "a"),
       { services := [], resolutionStack := [Key.str "a"] }) :=
  C4_circular_precedes_lookup { services := [], resolutionStack := [Key.str "a"] }
    (Token.str "a") (by decide)

/-- Claim C5: every `resolve` or `resolveAsync` call — whether it returns
normally or raises any error, including an error thrown by the factory
itself — leaves the resolution stack exactly as it was before the call, so a
failed resolution never corrupts cycle-detection state for later calls. -/
theorem C5_stack_restored (c : DIContainer) (t : Token) :
    (resolve c t).2.resolutionStack = c.resolutionStack ∧
    (resolveAsync c t).2.resolutionStack = c.resolutionStack := by
  constructor
  · cases hs : stackHas c.resolutionStack (getTokenKey t) with
    | true => rw [resolve_of_inStack hs]
    | false =>
      cases hm : mapGet c.services (getTokenKey t) with
      | none => rw [resolve_of_notFound hs hm]
      | some r =>
        cases hcold : (r.singleton && instanceDefined r) with
        | true =>
          obtain ⟨hg, hd⟩ := Bool.and_eq_true_iff.mp hcold
          rw [resolve_of_cacheHit hs hm hg hd]
        | false =>
          cases hf : r.factory r.calls with
          | throw e => rw [resolve_of_throw hs hm hcold hf]
          | ret v =>
            cases hp : isPromise v with
            | true => rw [resolve_of_promise hs hm hcold hf hp]
            | false => rw [resolve_of_ret hs hm hcold hf hp]
  · cases hs : stackHas c.resolutionStack (getTokenKey t) with
    | true => rw [resolveAsync_of_inStack hs]
    | false =>
      cases hm : mapGet c.services (getTokenKey t) with
      | none => rw [resolveAsync_of_notFound hs hm]
      | some r =>
        cases hcold : (r.singleton && instanceDefined r) with
        | true =>
          obtain ⟨hg, hd⟩ := Bool.and_eq_true_iff.mp hcold
          rw [resolveAsync_of_cacheHit hs hm hg hd]
        | false =>
          cases hf : r.factory r.calls with
          | throw e => rw [resolveAsync_of_throw hs hm hcold hf]
          | ret v => rw [resolveAsync_of_ret hs hm hcold hf]

theorem mapGet_mem {α : Type} {m : List (Key × α)} {k : Key} {v : α}
    (h : mapGet m k = some v) : (k, v) ∈ m := by
  induction m with
  | nil => simp [mapGet] at h
  | cons p rest ih =>
      obtain ⟨k', v'⟩ := p
      simp only [mapGet] at h
      by_cases hk : k' = k
      · rw [if_pos hk] at h
        injection h with h2
        subst hk; subst h2
        exact List.mem_cons_self _ _
      · rw [if_neg hk] at h
        exact List.mem_cons_of_mem _ (ih h)

/-- The cache/lifetime invariant of claim C10: any registration whose
`instance` field is present is a singleton registration. -/
def CacheInv (c : DIContainer) : Prop :=
  ∀ p ∈ c.services, p.2.inst ≠ none → p.2.singleton = true

theorem cacheInv_mapSet {c : DIContainer} {k : Key} {r : ServiceRegistration}
    (h : CacheInv c) (hr : r.inst ≠ none → r.singleton = true)
    (s : List Key) :
    CacheInv { services := mapSet c.services k r, resolutionStack := s } := by
  intro p hp hinst
  rcases mem_mapSet hp with h1 | h2
  · subst h1
    exact hr hinst
  · exact h p h2 hinst

/-- Claim C10: invariant kept by every operation — any registration whose
cached `instance` field is present is a singleton registration; a transient
registration never acquires a cached instance through `resolve`,
`resolveAsync`, or any other container operation. -/
theorem C10_cached_implies_singleton (c : DIContainer) (t : Token)
    (f : Nat → FactoryResult) (s : LifetimeScope) (v : Value)
    (h : CacheInv c) :
    CacheInv (register c t f s) ∧
    CacheInv (registerSingleton c t f) ∧
    CacheInv (registerTransient c t f) ∧
    CacheInv (registerInstance c t v) ∧
    CacheInv (resolve c t).2 ∧
    CacheInv (resolveAsync c t).2 ∧
    CacheInv (clear c) ∧
    dispose c = .ok (disposeVisit c.services, clear c) := by
  refine ⟨?_, ?_, ?_, ?_, ?_, ?_, ?_, rfl⟩
  · simp only [register]
    exact cacheInv_mapSet h (fun hi => absurd rfl hi) _
  · simp only [registerSingleton, register]
    exact cacheInv_mapSet h (fun hi => absurd rfl hi) _
  · simp only [registerTransient, register]
    exact cacheInv_mapSet h (fun hi => absurd rfl hi) _
  · simp only [registerInstance]
    exact cacheInv_mapSet h (fun _ => rfl) _
  · cases hs : stackHas c.resolutionStack (getTokenKey t) with
    | true => rw [resolve_of_inStack hs]; exact h
    | false =>
      cases hm : mapGet c.services (getTokenKey t) with
      | none => rw [resolve_of_notFound hs hm]; exact h
      | some r =>
        cases hcold : (r.singleton && instanceDefined r) with
        | true =>
          obtain ⟨hg, hd⟩ := Bool.and_eq_true_iff.mp hcold
          rw [resolve_of_cacheHit hs hm hg hd]; exact h
        | false =>
          cases hf : r.factory r.calls with
          | throw e =>
            rw [resolve_of_throw hs hm hcold hf]
            refine cacheInv_mapSet h ?_ _
            exact fun hi => h _ (mapGet_mem hm) hi
          | ret w =>
            cases hp : isPromise w with
            | true =>
              rw [resolve_of_promise hs hm hcold hf hp]
              refine cacheInv_mapSet h ?_ _
              exact fun hi => h _ (mapGet_mem hm) hi
            | false =>
              rw [resolve_of_ret hs hm hcold hf hp]
              refine cacheInv_mapSet h ?_ _
              intro hi
              by_cases hg : r.singleton = true
              · rw [if_pos hg] at hi ⊢
                exact hg
              · rw [if_neg hg] at hi ⊢
                exact h _ (mapGet_mem hm) hi
  · cases hs : stackHas c.resolutionStack (getTokenKey t) with
    | true => rw [resolveAsync_of_inStack hs]; exact h
    | false =>
      cases hm : mapGet c.services (getTokenKey t) with
      | none => rw [resolveAsync_of_notFound hs hm]; exact h
      | some r =>
        cases hcold : (r.singleton && instanceDefined r) with
        | true =>
          obtain ⟨hg, hd⟩ := Bool.and_eq_true_iff.mp hcold
          rw [resolveAsync_of_cacheHit hs hm hg hd]; exact h
        | false =>
          cases hf : r.factory r.calls with
          | throw e =>
            rw [resolveAsync_of_throw hs hm hcold hf]
            refine cacheInv_mapSet h ?_ _
            exact fun hi => h _ (mapGet_mem hm) hi
          | ret w =>
            rw [resolveAsync_of_ret hs hm hcold hf]
            refine cacheInv_mapSet h ?_ _
            intro hi
            by_cases hg : r.singleton = true
            · rw [if_pos hg] at hi ⊢
              exact hg
            · rw [if_neg hg] at hi ⊢
              exact h _ (mapGet_mem hm) hi
  · intro p hp hi
    simp [clear] at hp

theorem C10_cached_implies_singleton_witness :
    CacheInv (register emptyContainer (Token.str "a")
      (fun _ => FactoryResult.ret (Value.num 1)) LifetimeScope.transient) ∧
    CacheInv (registerSingleton emptyContainer (Token.str "a")
      (fun _ => FactoryResult.ret (Value.num 1))) ∧
    CacheInv (registerTransient emptyContainer (Token.str "a")
      (fun _ => FactoryResult.ret (Value.num 1))) ∧
    CacheInv (registerInstance emptyContainer (Token.str "a") (Value.num 2)) ∧
    CacheInv (resolve emptyContainer (Token.str "a")).2 ∧
    CacheInv (resolveAsync emptyContainer (Token.str "a")).2 ∧
    CacheInv (clear emptyContainer) ∧
    dispose emptyContainer =
      .ok (disposeVisit emptyContainer.services, clear emptyContainer) :=
  C10_cached_implies_singleton emptyContainer (Token.str "a")
    (fun _ => FactoryResult.ret (Value.num 1)) LifetimeScope.transient (Value.num 2)
    (fun p hp => (List.not_mem_nil p hp).elim)

/-- Claim C8: every accepted token shape is normalized to the same
`ServiceKey` wherever it is used — a string to itself, a symbol to itself,
and a class-like reference (with a declared, i.e. non-empty, name) to its
declared name — so registering and then looking up with the same token never
diverge, and two different constructor references sharing a declared name map
to the same registry key. -/
theorem C8_token_normalization (s d n u w : String) (i j l : Nat)
    (c : DIContainer) (t : Token) (f : Nat → FactoryResult)
    (g : LifetimeScope) (v : Value) (hn : n ≠ "") :
    getTokenKey (Token.str s) = Key.str s ∧
    getTokenKey (Token.sym i d) = Key.sym i d ∧
    getTokenKey (Token.ctor n u j) = Key.str n ∧
    getTokenKey (Token.ctor n u j) = getTokenKey (Token.ctor n w l) ∧
    hasToken (register c t f g) t = true ∧
    hasToken (registerInstance c t v) t = true := by
  refine ⟨rfl, rfl, by simp [getTokenKey, hn], by simp [getTokenKey, hn], ?_, ?_⟩
  · simp [hasToken, register, mapGet_mapSet_self]
  · simp [hasToken, registerInstance, mapGet_mapSet_self]

theorem C8_token_normalization_witness :
    getTokenKey (Token.str "a") = Key.str "a" ∧
    getTokenKey (Token.sym 3 "tag") = Key.sym 3 "tag" ∧
    getTokenKey (Token.ctor "UserService" "class UserService {}" 10) = Key.str "UserService" ∧
    getTokenKey (Token.ctor "UserService" "class UserService {}" 10) =
      getTokenKey (Token.ctor "UserService" "class UserService { other }" 11) ∧
    hasToken (register emptyContainer (Token.ctor "UserService" "class UserService {}" 10)
      (fun _ => FactoryResult.ret (Value.num 1)) LifetimeScope.singleton)
      (Token.ctor "UserService" "class UserService {}" 10) = true ∧
    hasToken (registerInstance emptyContainer (Token.ctor "UserService" "class UserService {}" 10)
      (Value.num 2)) (Token.ctor "UserService" "class UserService {}" 10) = true :=
  C8_token_normalization "a" "tag" "UserService" "class UserService {}"
    "class UserService { other }" 3 10 11 emptyContainer
    (Token.ctor "UserService" "class UserService {}" 10)
    (fun _ => FactoryResult.ret (Value.num 1)) LifetimeScope.singleton
    (Value.num 2) (by decide)

theorem hasDisposeMethod_shape {v : Value} (h : hasDisposeMethod v = true) :
    ∃ i b, v = .obj i (some b) := by
  cases v with
  | obj i td =>
      cases td with
      | none => simp [hasDisposeMethod] at h
      | some b => exact ⟨i, b, rfl⟩
  | undef => simp [hasDisposeMethod] at h
  | null => simp [hasDisposeMethod] at h
  | bool b => simp [hasDisposeMethod] at h
  | num n => simp [hasDisposeMethod] at h
  | str s => simp [hasDisposeMethod] at h
  | promise w => simp [hasDisposeMethod] at h

theorem mem_disposeVisit_cons {a : Nat} {x : Key × ServiceRegistration}
    {m : List (Key × ServiceRegistration)} (h : a ∈ disposeVisit m) :
    a ∈ disposeVisit (x :: m) := by
  obtain ⟨k, r⟩ := x
  simp only [disposeVisit]
  repeat' split
  all_goals first
    | exact h
    | exact List.mem_cons_of_mem _ h

theorem mem_disposeVisit {m : List (Key × ServiceRegistration)} {k : Key}
    {r : ServiceRegistration} {v : Value}
    (hm : (k, r) ∈ m) (hv : r.inst = some v) (hd : hasDisposeMethod v = true) :
    objId v ∈ disposeVisit m := by
  induction m with
  | nil => simp at hm
  | cons x rest ih =>
      rcases List.mem_cons.mp hm with h1 | h2
      · obtain ⟨i, b, rfl⟩ := hasDisposeMethod_shape hd
        subst h1
        cases b <;>
          simp [disposeVisit, instanceRead, hv, truthy, typeofIsObject,
            hasDisposeMethod, runTeardown, objId]
      · exact mem_disposeVisit_cons (ih h2)

/-- Claim C7: `dispose()` walks every registration; every cached instance
that exposes a teardown (`dispose`) method has it invoked — a teardown that
throws is caught and does not prevent invoking the teardown of any other
instance — `dispose()` itself never raises, and afterwards the registry is
cleared, so `has()` is false for every previously registered key. -/
theorem C7_dispose_total (c : DIContainer) (k : Key) (r : ServiceRegistration)
    (v : Value) (hm : (k, r) ∈ c.services) (hv : r.inst = some v)
    (hd : hasDisposeMethod v = true) :
    dispose c = .ok (disposeVisit c.services, clear c) ∧
    objId v ∈ disposeVisit c.services ∧
    (clear c).services = [] ∧
    (∀ u, hasToken (clear c) u = false) := by
  refine ⟨rfl, mem_disposeVisit hm hv hd, rfl, ?_⟩
  intro u
  simp [hasToken, clear, mapGet]

/-- A singleton instance whose teardown throws, cached under key "x". -/
def regThrowingTd : ServiceRegistration :=
  ⟨fun _ => .ret (.obj 1 (some true)), true, some (.obj 1 (some true)), 0⟩

/-- A singleton instance whose teardown succeeds, cached under key "y". -/
def regOkTd : ServiceRegistration :=
  ⟨fun _ => .ret (.obj 2 (some false)), true, some (.obj 2 (some false)), 0⟩

/-- Container holding both instances, the throwing one first in iteration
order (as produced by two `registerInstance` calls). -/
def disposeDemo : DIContainer :=
  { services := [(Key.str "x", regThrowingTd), (Key.str "y", regOkTd)],
    resolutionStack := [] }

theorem C7_dispose_total_witness :
    (dispose disposeDemo = .ok (disposeVisit disposeDemo.services, clear disposeDemo) ∧
     objId (Value.obj 2 (some false)) ∈ disposeVisit disposeDemo.services ∧
     (clear disposeDemo).services = [] ∧
     (∀ u, hasToken (clear disposeDemo) u = false)) ∧
    objId (Value.obj 1 (some true)) ∈ disposeVisit disposeDemo.services ∧
    disposeVisit disposeDemo.services = [1, 2] :=
  ⟨C7_dispose_total disposeDemo (Key.str "y") regOkTd (Value.obj 2 (some false))
      (List.mem_cons_of_mem _ (List.mem_cons_self _ _)) rfl rfl,
   (C7_dispose_total disposeDemo (Key.str "x") regThrowingTd (Value.obj 1 (some true))
      (List.mem_cons_self _ _) rfl rfl).2.1,
   rfl⟩

theorem resolve_of_ret_singleton {c : DIContainer} {t : Token}
    {r : ServiceRegistration} {v : Value}
    (hs : stackHas c.resolutionStack (getTokenKey t) = false)
    (hm : mapGet c.services (getTokenKey t) = some r)
    (hcold : (r.singleton && instanceDefined r) = false)
    (hf : r.factory r.calls = .ret v)
    (hp : isPromise v = false)
    (hg : r.singleton = true) :
    resolve c t =
      (.ok v,
       { c with
         services := (mapSet c.services (getTokenKey t) { r with calls := r.calls + 1, inst := some v }),
         resolutionStack := c.resolutionStack }) := by
  rw [resolve_of_ret hs hm hcold hf hp, if_pos hg]

theorem resolve_of_ret_transient {c : DIContainer} {t : Token}
    {r : ServiceRegistration} {v : Value}
    (hs : stackHas c.resolutionStack (getTokenKey t) = false)
    (hm : mapGet c.services (getTokenKey t) = some r)
    (hcold : (r.singleton && instanceDefined r) = false)
    (hf : r.factory r.calls = .ret v)
    (hp : isPromise v = false)
    (hg : r.singleton = false) :
    resolve c t =
      (.ok v,
       { c with
         services := (mapSet c.services (getTokenKey t) { r with calls := r.calls + 1 }),
         resolutionStack := c.resolutionStack }) := by
  rw [resolve_of_ret hs hm hcold hf hp, if_neg (by simp [hg])]

theorem resolveAsync_of_ret_singleton {c : DIContainer} {t : Token}
    {r : ServiceRegistration} {v : Value}
    (hs : stackHas c.resolutionStack (getTokenKey t) = false)
    (hm : mapGet c.services (getTokenKey t) = some r)
    (hcold : (r.singleton && instanceDefined r) = false)
    (hf : r.factory r.calls = .ret v)
    (hg : r.singleton = true) :
    resolveAsync c t =
      (.ok (awaitValue v),
       { c with
         services := (mapSet c.services (getTokenKey t)
           { r with calls := r.calls + 1, inst := some (awaitValue v) }),
         resolutionStack := c.resolutionStack }) := by
  rw [resolveAsync_of_ret hs hm hcold hf, if_pos hg]

theorem resolve_after_cache {c : DIContainer} {t : Token}
    {q : ServiceRegistration} {v : Value}
    (hs : stackHas c.resolutionStack (getTokenKey t) = false)
    (hg : q.singleton = true)
    (hq : q.inst = some v)
    (hu : v ≠ Value.undef) :
    resolve { c with
      services := (mapSet c.services (getTokenKey t) q),
      resolutionStack := c.resolutionStack } t =
      (.ok v,
       { c with
         services := (mapSet c.services (getTokenKey t) q),
         resolutionStack := c.resolutionStack }) := by
  have hd : instanceDefined q = true := by
    simp only [instanceDefined, instanceRead, hq, Option.getD_some, bne_iff_ne, ne_eq]
    simpa using hu
  have hmq : mapGet (mapSet c.services (getTokenKey t) q) (getTokenKey t) = some q :=
    mapGet_mapSet_self _ _ _
  have hh := resolve_of_cacheHit (c := { c with services := (mapSet c.services (getTokenKey t) q), resolutionStack := c.resolutionStack }) (t := t) hs hmq hg hd
  rw [hh]
  simp [instanceRead, hq]

/-- Claim C1, counterexample: a singleton factory returning `undefined` (a
falsy value). The cache guard is `registration.instance !== undefined`, not a
presence flag, so the first successful `resolve` does not produce a cache
hit for the second call: the factory runs twice, refuting "the factory runs
at most once". -/
theorem C1_counterexample :
    (resolve (register emptyContainer (Token.str "svc")
        (fun _ => FactoryResult.ret Value.undef) LifetimeScope.singleton)
        (Token.str "svc")).1 = .ok Value.undef ∧
    callsAt (resolve (resolve (register emptyContainer (Token.str "svc")
        (fun _ => FactoryResult.ret Value.undef) LifetimeScope.singleton)
        (Token.str "svc")).2 (Token.str "svc")).2 (Key.str "svc") = 2 ∧
    ¬ (2 ≤ 1) := by
  decide

/-- Claim C1 (amended): for a singleton registration, after a first
successful resolve whose value is **not `undefined`** (including the falsy
values `null`, `0`, `''`, `false`), the instance is cached — the guard is
`instance !== undefined`, not a presence flag — so a second `resolve` on the
same key returns the identical instance, the container state is unchanged,
and the factory has run exactly once across both calls; a singleton factory
returning `undefined` is instead re-invoked on every resolve. -/
theorem C1_singleton_caching (c : DIContainer) (t : Token)
    (r : ServiceRegistration) (v : Value)
    (hs : stackHas c.resolutionStack (getTokenKey t) = false)
    (hm : mapGet c.services (getTokenKey t) = some r)
    (hg : r.singleton = true)
    (hc : instanceDefined r = false)
    (hf : r.factory r.calls = .ret v)
    (hp : isPromise v = false)
    (hu : v ≠ Value.undef) :
    (resolve c t).1 = .ok v ∧
    resolve (resolve c t).2 t = (.ok v, (resolve c t).2) ∧
    callsAt (resolve c t).2 (getTokenKey t) = r.calls + 1 ∧
    instanceAt (resolve c t).2 (getTokenKey t) = some v := by
  have hcold : (r.singleton && instanceDefined r) = false := by
    rw [hc, Bool.and_false]
  have h1 := resolve_of_ret_singleton hs hm hcold hf hp hg
  rw [h1]
  refine ⟨rfl, ?_, ?_, ?_⟩
  · exact resolve_after_cache (c := c) (t := t)
      (q := { r with calls := r.calls + 1, inst := some v }) (v := v) hs hg rfl hu
  · simp [callsAt, mapGet_mapSet_self]
  · simp [instanceAt, mapGet_mapSet_self]

theorem C1_singleton_caching_witness :
    (resolve (register emptyContainer (Token.str "svc")
        (fun _ => FactoryResult.ret (Value.num 0)) LifetimeScope.singleton)
        (Token.str "svc")).1 = .ok (Value.num 0) ∧
    resolve (resolve (register emptyContainer (Token.str "svc")
        (fun _ => FactoryResult.ret (Value.num 0)) LifetimeScope.singleton)
        (Token.str "svc")).2 (Token.str "svc") =
      (.ok (Value.num 0),
       (resolve (register emptyContainer (Token.str "svc")
         (fun _ => FactoryResult.ret (Value.num 0)) LifetimeScope.singleton)
         (Token.str "svc")).2) ∧
    callsAt (resolve (register emptyContainer (Token.str "svc")
        (fun _ => FactoryResult.ret (Value.num 0)) LifetimeScope.singleton)
        (Token.str "svc")).2 (Key.str "svc") = 1 ∧
    instanceAt (resolve (register emptyContainer (Token.str "svc")
        (fun _ => FactoryResult.ret (Value.num 0)) LifetimeScope.singleton)
        (Token.str "svc")).2 (Key.str "svc") = some (Value.num 0) :=
  C1_singleton_caching _ _ ⟨fun _ => FactoryResult.ret (Value.num 0), true, none, 0⟩
    (Value.num 0) rfl rfl rfl rfl rfl rfl (by decide)

/-- Claim C3, counterexample: a singleton factory returning a promise of
`undefined`. `resolveAsync` succeeds and assigns the `instance` field, but the
assigned value `undefined` fails the `instance !== undefined` cache guard, so
the later `resolve` does not return the cached instance: it re-invokes the
factory (two invocations in total) and throws the async-in-sync error. -/
theorem C3_counterexample :
    (resolveAsync (register emptyContainer (Token.str "svc")
        (fun _ => FactoryResult.ret (Value.promise Value.undef)) LifetimeScope.singleton)
        (Token.str "svc")).1 = .ok Value.undef ∧
    (resolve (resolveAsync (register emptyContainer (Token.str "svc")
        (fun _ => FactoryResult.ret (Value.promise Value.undef)) LifetimeScope.singleton)
        (Token.str "svc")).2 (Token.str "svc")).1 =
      .error (mkDIContainerError
        "Cannot resolve async service synchronously: svc. Use resolveAsync instead.") ∧
    callsAt (resolve (resolveAsync (register emptyContainer (Token.str "svc")
        (fun _ => FactoryResult.ret (Value.promise Value.undef)) LifetimeScope.singleton)
        (Token.str "svc")).2 (Token.str "svc")).2 (Key.str "svc") = 2 := by
  decide

/-- Claim C3 (amended): for a singleton whose factory returns a pending
promise, `resolve` raises the async-in-sync `DIContainerError` after the
factory has run (invocation count is incremented) but before any caching (the
`instance` field is unchanged); `resolveAsync` on the same key succeeds and
caches the awaited value, and — **provided the awaited value is not
`undefined`** — a later `resolve` returns the cached instance without
re-invoking the factory. -/
theorem C3_sync_async_boundary (c : DIContainer) (t : Token)
    (r : ServiceRegistration) (w : Value)
    (hs : stackHas c.resolutionStack (getTokenKey t) = false)
    (hm : mapGet c.services (getTokenKey t) = some r)
    (hg : r.singleton = true)
    (hc : instanceDefined r = false)
    (hf : ∀ n, r.factory n = .ret (Value.promise w))
    (_hp : isPromise w = false)
    (hu : w ≠ Value.undef) :
    (resolve c t).1 =
      .error (mkDIContainerError ("Cannot resolve async service synchronously: " ++ keyToString (getTokenKey t) ++ ". Use resolveAsync instead.")) ∧
    instanceAt (resolve c t).2 (getTokenKey t) = r.inst ∧
    callsAt (resolve c t).2 (getTokenKey t) = r.calls + 1 ∧
    (resolveAsync (resolve c t).2 t).1 = .ok w ∧
    instanceAt (resolveAsync (resolve c t).2 t).2 (getTokenKey t) = some w ∧
    callsAt (resolveAsync (resolve c t).2 t).2 (getTokenKey t) = r.calls + 1 + 1 ∧
    resolve (resolveAsync (resolve c t).2 t).2 t =
      (.ok w, (resolveAsync (resolve c t).2 t).2) := by
  have hcold : (r.singleton && instanceDefined r) = false := by
    rw [hc, Bool.and_false]
  have h1 := resolve_of_promise hs hm hcold (hf r.calls) rfl
  rw [h1]
  dsimp only
  have h2 := resolveAsync_of_ret_singleton (c := { c with services := (mapSet c.services (getTokenKey t) { r with calls := r.calls + 1 }), resolutionStack := c.resolutionStack }) (t := t) (r := { r with calls := r.calls + 1 }) (v := Value.promise w) hs (mapGet_mapSet_self _ _ _) hcold (hf (r.calls + 1)) hg
  rw [h2]
  dsimp only
  refine ⟨rfl, ?_, ?_, ?_, ?_, ?_, ?_⟩
  · simp [instanceAt, mapGet_mapSet_self]
  · simp [callsAt, mapGet_mapSet_self]
  · simp [awaitValue]
  · simp [instanceAt, mapGet_mapSet_self, awaitValue]
  · simp [callsAt, mapGet_mapSet_self]
  · exact resolve_after_cache (c := { c with services := (mapSet c.services (getTokenKey t) { r with calls := r.calls + 1 }), resolutionStack := c.resolutionStack }) (t := t) (q := ⟨r.factory, r.singleton, some w, r.calls + 1 + 1⟩) (v := w) hs hg rfl hu

theorem C3_sync_async_boundary_witness :
    (resolve (register emptyContainer (Token.str "svc")
        (fun _ => FactoryResult.ret (Value.promise (Value.num 3))) LifetimeScope.singleton)
        (Token.str "svc")).1 =
      .error (mkDIContainerError "Cannot resolve async service synchronously: svc. Use resolveAsync instead.") ∧
    instanceAt (resolve (register emptyContainer (Token.str "svc")
        (fun _ => FactoryResult.ret (Value.promise (Value.num 3))) LifetimeScope.singleton)
        (Token.str "svc")).2 (Key.str "svc") = none ∧
    callsAt (resolve (register emptyContainer (Token.str "svc")
        (fun _ => FactoryResult.ret (Value.promise (Value.num 3))) LifetimeScope.singleton)
        (Token.str "svc")).2 (Key.str "svc") = 1 ∧
    (resolveAsync (resolve (register emptyContainer (Token.str "svc")
        (fun _ => FactoryResult.ret (Value.promise (Value.num 3))) LifetimeScope.singleton)
        (Token.str "svc")).2 (Token.str "svc")).1 = .ok (Value.num 3) ∧
    instanceAt (resolveAsync (resolve (register emptyContainer (Token.str "svc")
        (fun _ => FactoryResult.ret (Value.promise (Value.num 3))) LifetimeScope.singleton)
        (Token.str "svc")).2 (Token.str "svc")).2 (Key.str "svc") = some (Value.num 3) ∧
    callsAt (resolveAsync (resolve (register emptyContainer (Token.str "svc")
        (fun _ => FactoryResult.ret (Value.promise (Value.num 3))) LifetimeScope.singleton)
        (Token.str "svc")).2 (Token.str "svc")).2 (Key.str "svc") = 2 ∧
    resolve (resolveAsync (resolve (register emptyContainer (Token.str "svc")
        (fun _ => FactoryResult.ret (Value.promise (Value.num 3))) LifetimeScope.singleton)
        (Token.str "svc")).2 (Token.str "svc")).2 (Token.str "svc") =
      (.ok (Value.num 3),
       (resolveAsync (resolve (register emptyContainer (Token.str "svc")
         (fun _ => FactoryResult.ret (Value.promise (Value.num 3))) LifetimeScope.singleton)
         (Token.str "svc")).2 (Token.str "svc")).2) :=
  C3_sync_async_boundary _ _
    ⟨fun _ => FactoryResult.ret (Value.promise (Value.num 3)), true, none, 0⟩
    (Value.num 3) rfl rfl rfl rfl (fun _ => rfl) rfl (by decide)

/-- Claim C6, counterexample: `registerInstance(key, undefined)` stores the
instance, and `resolve` does return it — but because the stored `undefined`
fails the `instance !== undefined` cache guard, the constant factory IS
invoked (once), refuting "with no factory invocation at all". -/
theorem C6_counterexample :
    (resolve (registerInstance emptyContainer (Token.str "svc") Value.undef)
        (Token.str "svc")).1 = .ok Value.undef ∧
    callsAt (resolve (registerInstance emptyContainer (Token.str "svc") Value.undef)
        (Token.str "svc")).2 (Key.str "svc") = 1 ∧
    (1 : Nat) ≠ 0 := by
  decide

/-- Claim C6 (amended): for every instance `x` other than `undefined`,
`registerInstance(key, x)` followed immediately by `resolve(key)` returns `x`
with no factory invocation, leaves the container unchanged, and `has(key)` is
true before any resolution; for `x = undefined` the stored constant factory
is invoked (still returning `x`). -/
theorem C6_register_instance_shortcut (c : DIContainer) (t : Token) (v : Value)
    (hs : stackHas c.resolutionStack (getTokenKey t) = false)
    (hu : v ≠ Value.undef) :
    hasToken (registerInstance c t v) t = true ∧
    resolve (registerInstance c t v) t = (.ok v, registerInstance c t v) ∧
    callsAt (resolve (registerInstance c t v) t).2 (getTokenKey t) = 0 := by
  have hd : instanceDefined (⟨fun _ => .ret v, true, some v, 0⟩ : ServiceRegistration) = true := by
    simp only [instanceDefined, instanceRead, Option.getD_some, bne_iff_ne, ne_eq]
    simpa using hu
  have hh := resolve_of_cacheHit (c := registerInstance c t v) (t := t) (r := ⟨fun _ => .ret v, true, some v, 0⟩) hs (mapGet_mapSet_self _ _ _) rfl hd
  have h2 : resolve (registerInstance c t v) t = (.ok v, registerInstance c t v) := by
    rw [hh]
    simp [instanceRead]
  refine ⟨?_, h2, ?_⟩
  · simp [hasToken, registerInstance, mapGet_mapSet_self]
  · rw [h2]
    simp [callsAt, registerInstance, mapGet_mapSet_self]

theorem C6_register_instance_shortcut_witness :
    hasToken (registerInstance emptyContainer (Token.str "svc") Value.null)
      (Token.str "svc") = true ∧
    resolve (registerInstance emptyContainer (Token.str "svc") Value.null)
      (Token.str "svc") =
      (.ok Value.null, registerInstance emptyContainer (Token.str "svc") Value.null) ∧
    callsAt (resolve (registerInstance emptyContainer (Token.str "svc") Value.null)
      (Token.str "svc")).2 (Key.str "svc") = 0 :=
  C6_register_instance_shortcut emptyContainer (Token.str "svc") Value.null rfl (by decide)

/-- Claim C9, counterexample: a transient registration whose factory returns
the same object (reference) on every call. The container does run the factory
once per `resolve`, but the two resolves return reference-equal instances
(the same object identity), refuting "instances that are not
reference-equal". -/
theorem C9_counterexample :
    (resolve (register emptyContainer (Token.str "svc")
        (fun _ => FactoryResult.ret (Value.obj 7 none)) LifetimeScope.transient)
        (Token.str "svc")).1 = .ok (Value.obj 7 none) ∧
    (resolve (resolve (register emptyContainer (Token.str "svc")
        (fun _ => FactoryResult.ret (Value.obj 7 none)) LifetimeScope.transient)
        (Token.str "svc")).2 (Token.str "svc")).1 = .ok (Value.obj 7 none) ∧
    (resolve (register emptyContainer (Token.str "svc")
        (fun _ => FactoryResult.ret (Value.obj 7 none)) LifetimeScope.transient)
        (Token.str "svc")).1 =
      (resolve (resolve (register emptyContainer (Token.str "svc")
        (fun _ => FactoryResult.ret (Value.obj 7 none)) LifetimeScope.transient)
        (Token.str "svc")).2 (Token.str "svc")).1 := by
  decide

/-- Claim C9 (amended): for a transient registration the factory runs exactly
once per `resolve` call and the cached-instance field is neither read nor
written; two consecutive resolves return whatever the factory's two
invocations produce, so the results are not reference-equal exactly when the
factory returns distinct (fresh) instances — a constant factory yields
reference-equal results. -/
theorem C9_transient_per_call (c : DIContainer) (t : Token)
    (r : ServiceRegistration) (v w : Value)
    (hs : stackHas c.resolutionStack (getTokenKey t) = false)
    (hm : mapGet c.services (getTokenKey t) = some r)
    (hg : r.singleton = false)
    (h1 : r.factory r.calls = .ret v)
    (hp1 : isPromise v = false)
    (h2 : r.factory (r.calls + 1) = .ret w)
    (hp2 : isPromise w = false) :
    (resolve c t).1 = .ok v ∧
    (resolve (resolve c t).2 t).1 = .ok w ∧
    callsAt (resolve c t).2 (getTokenKey t) = r.calls + 1 ∧
    callsAt (resolve (resolve c t).2 t).2 (getTokenKey t) = r.calls + 1 + 1 ∧
    instanceAt (resolve c t).2 (getTokenKey t) = r.inst ∧
    instanceAt (resolve (resolve c t).2 t).2 (getTokenKey t) = r.inst ∧
    (v ≠ w → (resolve c t).1 ≠ (resolve (resolve c t).2 t).1) := by
  have hcold : (r.singleton && instanceDefined r) = false := by
    rw [hg, Bool.false_and]
  have e1 := resolve_of_ret_transient hs hm hcold h1 hp1 hg
  rw [e1]
  dsimp only
  have e2 := resolve_of_ret_transient (c := { c with services := (mapSet c.services (getTokenKey t) { r with calls := r.calls + 1 }), resolutionStack := c.resolutionStack }) (t := t) (r := { r with calls := r.calls + 1 }) (v := w) hs (mapGet_mapSet_self _ _ _) hcold h2 hp2 hg
  rw [e2]
  dsimp only
  refine ⟨rfl, rfl, ?_, ?_, ?_, ?_, ?_⟩
  · simp [callsAt, mapGet_mapSet_self]
  · simp [callsAt, mapGet_mapSet_self]
  · simp [instanceAt, mapGet_mapSet_self]
  · simp [instanceAt, mapGet_mapSet_self]
  · intro hne hq
    injection hq with hq2
    exact hne hq2

theorem C9_transient_per_call_witness :
    (resolve (register emptyContainer (Token.str "svc")
        (fun n => FactoryResult.ret (Value.obj n none)) LifetimeScope.transient)
        (Token.str "svc")).1 = .ok (Value.obj 0 none) ∧
    (resolve (resolve (register emptyContainer (Token.str "svc")
        (fun n => FactoryResult.ret (Value.obj n none)) LifetimeScope.transient)
        (Token.str "svc")).2 (Token.str "svc")).1 = .ok (Value.obj 1 none) ∧
    callsAt (resolve (register emptyContainer (Token.str "svc")
        (fun n => FactoryResult.ret (Value.obj n none)) LifetimeScope.transient)
        (Token.str "svc")).2 (Key.str "svc") = 1 ∧
    callsAt (resolve (resolve (register emptyContainer (Token.str "svc")
        (fun n => FactoryResult.ret (Value.obj n none)) LifetimeScope.transient)
        (Token.str "svc")).2 (Token.str "svc")).2 (Key.str "svc") = 2 ∧
    instanceAt (resolve (register emptyContainer (Token.str "svc")
        (fun n => FactoryResult.ret (Value.obj n none)) LifetimeScope.transient)
        (Token.str "svc")).2 (Key.str "svc") = none ∧
    instanceAt (resolve (resolve (register emptyContainer (Token.str "svc")
        (fun n => FactoryResult.ret (Value.obj n none)) LifetimeScope.transient)
        (Token.str "svc")).2 (Token.str "svc")).2 (Key.str "svc") = none ∧
    (resolve (register emptyContainer (Token.str "svc")
        (fun n => FactoryResult.ret (Value.obj n none)) LifetimeScope.transient)
        (Token.str "svc")).1 ≠
      (resolve (resolve (register emptyContainer (Token.str "svc")
        (fun n => FactoryResult.ret (Value.obj n none)) LifetimeScope.transient)
        (Token.str "svc")).2 (Token.str "svc")).1 := by
  have h := C9_transient_per_call
    (register emptyContainer (Token.str "svc")
      (fun n => FactoryResult.ret (Value.obj n none)) LifetimeScope.transient)
    (Token.str "svc")
    ⟨fun n => FactoryResult.ret (Value.obj n none), false, none, 0⟩
    (Value.obj 0 none) (Value.obj 1 none) rfl rfl rfl rfl rfl rfl rfl
  exact ⟨h.1, h.2.1, h.2.2.1, h.2.2.2.1, h.2.2.2.2.1, h.2.2.2.2.2.1,
    h.2.2.2.2.2.2 (by decide)⟩

/-- Claim C2, counterexample: the async-in-sync failure is raised as the
**base** `DIContainerError` itself (`new DIContainerError(...)` at the
promise check), not as a distinct subtype of it, refuting "each is raised as
a distinct subtype of the common base error". -/
theorem C2_counterexample :
    (resolve (register emptyContainer (Token.str "svc")
        (fun _ => FactoryResult.ret (Value.promise (Value.num 1))) LifetimeScope.singleton)
        (Token.str "svc")).1 =
      .error (mkDIContainerError
        "Cannot resolve async service synchronously: svc. Use resolveAsync instead.") ∧
    (mkDIContainerError
      "Cannot resolve async service synchronously: svc. Use resolveAsync instead.").cls =
      ErrorClass.diContainerError ∧
    ErrorClass.properSubclassOf
      (mkDIContainerError
        "Cannot resolve async service synchronously: svc. Use resolveAsync instead.").cls
      ErrorClass.diContainerError = false := by
  decide

/-- Claim C2 (amended): `CircularDependencyError` and `ServiceNotFoundError`
are raised as distinct proper subtypes of the base `DIContainerError`; the
async-in-sync failure is raised as the base `DIContainerError` itself. All
three are instances of the base family (a broad catch works) and carry
pairwise-distinct classes (a caller can still discriminate which occurred),
but the async error is not a proper subtype. -/
theorem C2_error_taxonomy (c d g : DIContainer) (t u o : Token)
    (r : ServiceRegistration) (v : Value)
    (h1 : stackHas c.resolutionStack (getTokenKey t) = true)
    (h2 : stackHas d.resolutionStack (getTokenKey u) = false)
    (h3 : mapGet d.services (getTokenKey u) = none)
    (h4 : stackHas g.resolutionStack (getTokenKey o) = false)
    (h5 : mapGet g.services (getTokenKey o) = some r)
    (h6 : (r.singleton && instanceDefined r) = false)
    (h7 : r.factory r.calls = .ret v)
    (h8 : isPromise v = true) :
    (resolve c t).1 = .error (mkCircularDependencyError (keyToString (getTokenKey t))) ∧
    (resolve d u).1 = .error (mkServiceNotFoundError (keyToString (getTokenKey u))) ∧
    (resolve g o).1 = .error (mkDIContainerError ("Cannot resolve async service synchronously: " ++ keyToString (getTokenKey o) ++ ". Use resolveAsync instead.")) ∧
    ErrorClass.instanceOf (mkCircularDependencyError (keyToString (getTokenKey t))).cls ErrorClass.diContainerError = true ∧
    ErrorClass.instanceOf (mkServiceNotFoundError (keyToString (getTokenKey u))).cls ErrorClass.diContainerError = true ∧
    ErrorClass.instanceOf (mkDIContainerError "").cls ErrorClass.diContainerError = true ∧
    ErrorClass.properSubclassOf (mkCircularDependencyError (keyToString (getTokenKey t))).cls ErrorClass.diContainerError = true ∧
    ErrorClass.properSubclassOf (mkServiceNotFoundError (keyToString (getTokenKey u))).cls ErrorClass.diContainerError = true ∧
    (mkCircularDependencyError (keyToString (getTokenKey t))).cls ≠ (mkServiceNotFoundError (keyToString (getTokenKey u))).cls ∧
    (mkCircularDependencyError (keyToString (getTokenKey t))).cls ≠ (mkDIContainerError "").cls ∧
    (mkServiceNotFoundError (keyToString (getTokenKey u))).cls ≠ (mkDIContainerError "").cls ∧
    (mkDIContainerError "").cls = ErrorClass.diContainerError ∧
    ErrorClass.properSubclassOf (mkDIContainerError "").cls ErrorClass.diContainerError = false := by
  refine ⟨?_, ?_, ?_, rfl, rfl, rfl, rfl, rfl,
    fun h => ErrorClass.noConfusion h, fun h => ErrorClass.noConfusion h,
    fun h => ErrorClass.noConfusion h, rfl, rfl⟩
  · rw [resolve_of_inStack h1]
  · rw [resolve_of_notFound h2 h3]
  · rw [resolve_of_promise h4 h5 h6 h7 h8]

theorem C2_error_taxonomy_witness :
    (resolve { services := [], resolutionStack := [Key.str "a"] } (Token.str "a")).1 =
      .error (mkCircularDependencyError "a") ∧
    (resolve emptyContainer (Token.str "b")).1 =
      .error (mkServiceNotFoundError "b") ∧
    (resolve (register emptyContainer (Token.str "p")
        (fun _ => FactoryResult.ret (Value.promise (Value.num 1))) LifetimeScope.singleton)
        (Token.str "p")).1 =
      .error (mkDIContainerError "Cannot resolve async service synchronously: p. Use resolveAsync instead.") ∧
    ErrorClass.instanceOf (mkCircularDependencyError "a").cls ErrorClass.diContainerError = true ∧
    ErrorClass.instanceOf (mkServiceNotFoundError "b").cls ErrorClass.diContainerError = true ∧
    ErrorClass.instanceOf (mkDIContainerError "").cls ErrorClass.diContainerError = true ∧
    ErrorClass.properSubclassOf (mkCircularDependencyError "a").cls ErrorClass.diContainerError = true ∧
    ErrorClass.properSubclassOf (mkServiceNotFoundError "b").cls ErrorClass.diContainerError = true ∧
    (mkCircularDependencyError "a").cls ≠ (mkServiceNotFoundError "b").cls ∧
    (mkCircularDependencyError "a").cls ≠ (mkDIContainerError "").cls ∧
    (mkServiceNotFoundError "b").cls ≠ (mkDIContainerError "").cls ∧
    (mkDIContainerError "").cls = ErrorClass.diContainerError ∧
    ErrorClass.properSubclassOf (mkDIContainerError "").cls ErrorClass.diContainerError = false :=
  C2_error_taxonomy { services := [], resolutionStack := [Key.str "a"] }
    emptyContainer
    (register emptyContainer (Token.str "p")
      (fun _ => FactoryResult.ret (Value.promise (Value.num 1))) LifetimeScope.singleton)
    (Token.str "a") (Token.str "b") (Token.str "p")
    ⟨fun _ => FactoryResult.ret (Value.promise (Value.num 1)), true, none, 0⟩
    (Value.promise (Value.num 1))
    rfl rfl rfl rfl rfl rfl rfl rfl
